import Mathlib

/-!
Shallow embedding of `Dynamic_DCF_Model.py`, the single source file of the
DCF-MODEL repository: a Streamlit script that fetches financial data, builds a
free-cash-flow (FCFF) history, projects it forward, computes a WACC discount
rate, discounts projected and terminal cash flows to a per-share fair value,
and renders a sensitivity grid.

Modelling conventions:
* Monetary and rate values are embedded as `ℚ` (Python floats / numpy float64
  in the source).  `ℚ` has no NaN or infinity, so a pandas NaN (missing cell)
  is embedded as `Option.none`, and the places where the Python code can raise
  (indexing an empty pandas index, a missing dict key) are embedded as
  `Except` failures.
* Division in `ℚ` is total with `q / 0 = 0`.  Where a zero denominator in the
  source would produce a non-finite float (numpy division by zero) rather than
  an ordinary number, a separate checked definition (`fairValueChecked`)
  returns `none`; its doc comment states the correspondence.
* Line numbers in doc comments refer to `src/Dynamic_DCF_Model.py`.
-/

namespace DCF

/-- One fiscal-period row of the cash-flow statement as fetched
(lines 45-46): the index entry (a calendar year, chronology key of the pandas
index) and the two line items used by the model.  A pandas NaN cell is
`none`. -/
structure RawPeriod where
  year : ℤ
  cfo : Option ℚ
  capex : Option ℚ
deriving Repr, DecidableEq

/-- One row of the cleaned `fcff_df` (lines 49-55) after the NaN rows are
dropped: both inputs are present and the FCFF column carries their sum. -/
structure FcffPeriod where
  year : ℤ
  cfo : ℚ
  capex : ℚ
  fcff : ℚ
deriving Repr, DecidableEq

/-- Lines 47-55: `fcff = cfo + capex`, assemble the DataFrame, sort the index
ascending, and `dropna(how="any")`.  `fcff` is NaN exactly when `cfo` or
`capex` is (NaN propagates through `+`), so dropping any-NaN rows keeps
precisely the periods with both inputs present.  The reordering is embedded
as a stable ascending sort on the index year. -/
def fcff_df (raw : List RawPeriod) : List FcffPeriod :=
  (raw.insertionSort (fun a b => a.year ≤ b.year)).filterMap (fun p =>
    match p.cfo, p.capex with
    | some c, some x => some ⟨p.year, c, x, c + x⟩
    | _, _ => none)

/-- Embedding of `Series.tail(3)` (line 58): the last three elements (all of them when the
list is shorter). -/
def tail3 (l : List ℚ) : List ℚ := l.drop (l.length - 3)

/-- Embedding of `Series.mean()`: sum divided by length (`ℚ` division; the empty case is
never consumed, see `pipeline`). -/
def mean (l : List ℚ) : ℚ := l.sum / l.length

/-- Line 58: `base_fcff = fcff_df['Free Cash Flow To The Firm'].tail(3).mean()`. -/
def base_fcff (hist : List FcffPeriod) : ℚ :=
  mean (tail3 (hist.map (·.fcff)))

/-- Line 63: `projected_fcff = [base_fcff * (1 + fcff_growth_rate) ** i
for i in range(1, forecast_years + 1)]`. -/
def projected_fcff (base g : ℚ) (n : ℕ) : List ℚ :=
  (List.range n).map (fun i => base * (1 + g) ^ (i + 1))

/-- Line 61: `forecast_years_range = list(range(last_year + 1,
last_year + 1 + forecast_years))`. -/
def forecast_years_range (lastYear : ℤ) (n : ℕ) : List ℤ :=
  (List.range n).map (fun (i : ℕ) => lastYear + 1 + (i : ℤ))

/-- Lines 64-67: the projection DataFrame, rows `(Year, Projected FCFF)`. -/
def projection_df (base g : ℚ) (lastYear : ℤ) (n : ℕ) : List (ℤ × ℚ) :=
  List.zip (forecast_years_range lastYear n) (projected_fcff base g n)

/-- The company profile dict `info` (lines 72-75, 99): a missing key is
`none`.  `marketCap` and `sharesOutstanding` are read with `info[...]`
(KeyError when absent); `totalDebt` and `totalCash` with
`info.get(..., 0)`. -/
structure Profile where
  marketCap : Option ℚ
  totalDebt : Option ℚ
  totalCash : Option ℚ
  sharesOutstanding : Option ℚ
deriving Repr, DecidableEq

/-- Line 84: `total_value = market_cap + net_debt`. -/
def total_value (marketCap netDebt : ℚ) : ℚ := marketCap + netDebt

/-- Line 85: `equity_weight = market_cap / total_value if total_value != 0
else 1`. -/
def equity_weight (marketCap netDebt : ℚ) : ℚ :=
  if total_value marketCap netDebt ≠ 0 then marketCap / total_value marketCap netDebt else 1

/-- Line 86: `debt_weight = net_debt / total_value if total_value != 0
else 0`. -/
def debt_weight (marketCap netDebt : ℚ) : ℚ :=
  if total_value marketCap netDebt ≠ 0 then netDebt / total_value marketCap netDebt else 0

/-- Line 91: `discounted_fcffs = [fcff / ((1 + wacc) ** i) for i, fcff in
enumerate(projection_df['Projected FCFF'], start=1)]`. -/
def discounted_fcffs (proj : List ℚ) (wacc : ℚ) : List ℚ :=
  (List.enumFrom 1 proj).map (fun p => p.2 / (1 + wacc) ^ p.1)

/-- Line 94: `terminal_value = projected_fcff[-1] * (1 + terminal_growth_rate)
/ (wacc - terminal_growth_rate)`; `projected_fcff[-1]` is the last element
(the forecast horizon is 5-15 years, so the list is nonempty in the source;
the default 0 of `getLastD` is never consumed under that hypothesis). -/
def terminal_value (proj : List ℚ) (g wacc : ℚ) : ℚ :=
  proj.getLastD 0 * (1 + g) / (wacc - g)

/-- Line 95: `terminal_value_discounted = terminal_value /
((1 + wacc) ** forecast_years)`. -/
def terminal_value_discounted (tv wacc : ℚ) (n : ℕ) : ℚ :=
  tv / (1 + wacc) ^ n

/-- Line 97: `enterprise_value = sum(discounted_fcffs) +
terminal_value_discounted`. -/
def enterprise_value (proj : List ℚ) (wacc g : ℚ) (n : ℕ) : ℚ :=
  (discounted_fcffs proj wacc).sum
    + terminal_value_discounted (terminal_value proj g wacc) wacc n

/-- Line 98: `equity_value = enterprise_value - net_debt`. -/
def equity_value (proj : List ℚ) (wacc g : ℚ) (n : ℕ) (netDebt : ℚ) : ℚ :=
  enterprise_value proj wacc g n - netDebt

/-- Line 100: `fair_value_per_share = (equity_value * 1e9) /
shares_outstanding`.  `equity_value` is in billions (every monetary input was
divided by `1e9` at lines 41-43 and 72-74), `shares_outstanding` a raw share
count. -/
def fair_value_per_share (equityValue shares : ℚ) : ℚ :=
  equityValue * 10 ^ 9 / shares

/-- The base-case valuation chain (lines 91-100) with its divisions checked:
`ℚ` has no non-finite values, so this variant returns `none` exactly when a
denominator in the chain is zero - the inputs on which the source's float
division produces a non-finite value (numpy float64 division by zero) instead
of an ordinary number.  On all other inputs it agrees with the unchecked
chain. -/
def fairValueChecked (proj : List ℚ) (wacc g : ℚ) (n : ℕ) (netDebt shares : ℚ) : Option ℚ :=
  if 1 + wacc = 0 ∨ wacc - g = 0 ∨ shares = 0 then none
  else some (fair_value_per_share (equity_value proj wacc g n netDebt) shares)

/-- Round half to even, the tie-breaking rule of Python's `round`. -/
def roundHalfEven (x : ℚ) : ℤ :=
  if x - ⌊x⌋ < 1 / 2 then ⌊x⌋
  else if 1 / 2 < x - ⌊x⌋ then ⌊x⌋ + 1
  else if ⌊x⌋ % 2 = 0 then ⌊x⌋ else ⌊x⌋ + 1

/-- Embedding of `round(x, 2)` (line 175): round to two decimal places. -/
def round2 (x : ℚ) : ℚ := roundHalfEven (x * 100) / 100

/-- A sensitivity-grid cell (lines 163-175): either the `"N/A"` sentinel
string or a numeric fair price. -/
inductive Cell where
  | na : Cell
  | val : ℚ → Cell
deriving Repr, DecidableEq

/-- One iteration of the sensitivity loop (lines 163-175): with discount rate
`w` (row) and terminal growth rate `g` (column), emit `"N/A"` when `w <= g`,
otherwise recompute terminal value, discounting, enterprise value, equity
value and fair price from the same projection series and store it rounded to
2 places. -/
def sensCell (proj : List ℚ) (n : ℕ) (netDebt shares : ℚ) (w g : ℚ) : Cell :=
  if w ≤ g then Cell.na
  else
    let tv := proj.getLastD 0 * (1 + g) / (w - g)
    let tvDisc := tv / (1 + w) ^ n
    let entVal := ((List.enumFrom 1 proj).map (fun p => p.2 / (1 + w) ^ p.1)).sum + tvDisc
    let eqVal := entVal - netDebt
    let fairPrice := eqVal * 10 ^ 9 / shares
    Cell.val (round2 fairPrice)

/-- The sensitivity table (lines 160-177) over given row and column rate
lists. -/
def sensitivity_df (proj : List ℚ) (n : ℕ) (netDebt shares : ℚ)
    (waccRange gRange : List ℚ) : List (List Cell) :=
  waccRange.map (fun w => gRange.map (fun g => sensCell proj n netDebt shares w g))

/-- The full §4.4 valuation chain written from the spec's own formulas, to be
compared with the source chain: discountedFCFF[i] = projectedFCFF[i] /
(1+wacc)^i for i = 1..forecastYears, terminalValue =
projectedFCFF[forecastYears] * (1+terminalGrowthRate) /
(wacc - terminalGrowthRate), terminalValueDiscounted = terminalValue /
(1+wacc)^forecastYears, enterpriseValue = sum(discountedFCFF) +
terminalValueDiscounted, equityValue = enterpriseValue - netDebt,
fairValuePerShare = equityValue / sharesOutstanding scaled from billions to
currency units. -/
def specFairValue (proj : List ℚ) (wacc g : ℚ) (n : ℕ) (netDebt shares : ℚ) : ℚ :=
  let discounted := (List.range n).map (fun i => proj.getD i 0 / (1 + wacc) ^ (i + 1))
  let tv := proj.getD (n - 1) 0 * (1 + g) / (wacc - g)
  let tvd := tv / (1 + wacc) ^ n
  let ev := discounted.sum + tvd
  let eqv := ev - netDebt
  eqv * 10 ^ 9 / shares

/-- Where the Python run can raise before the top-level `except Exception`
(line 179) catches it: indexing an empty pandas index (`iloc[-1]` /
`index[-1]`) or a missing dict key (`info["..."]`). -/
inductive PyError where
  | indexError : PyError
  | keyError : String → PyError
deriving Repr, DecidableEq

/-- All inputs of one pipeline run: sidebar assumptions (lines 24-29), the
cash-flow statement rows, the profile dict, the FRED risk-free rate (line 70)
and the income-statement `Interest Expense` column (line 78). -/
structure Inputs where
  raw : List RawPeriod
  profile : Profile
  riskFreeRate : ℚ
  beta : ℚ
  marketReturn : ℚ
  forecastYears : ℕ
  fcffGrowthRate : ℚ
  terminalGrowthRate : ℚ
  interestExpenseCol : List (Option ℚ)
deriving Repr, DecidableEq

/-- What a successful run computes and renders (metrics, chart, grid omitted:
the grid is `sensitivity_df` over the same pieces). -/
structure Outputs where
  base : ℚ
  lastYear : ℤ
  projection : List (ℤ × ℚ)
  wacc : ℚ
  equityValue : ℚ
  fairValuePerShare : ℚ
deriving Repr, DecidableEq

/-- Lines 45-100 as one run: every step in source order; a raised exception
aborts the run (it is caught only by the top-level handler at line 179, which
renders a single error notice and nothing else). -/
def pipeline (inp : Inputs) : Except PyError Outputs :=
  let hist := fcff_df inp.raw
  let base := base_fcff hist
  match hist.getLast? with
  | none => Except.error PyError.indexError
  | some lastPeriod =>
    let lastYear := lastPeriod.year
    let proj := projected_fcff base inp.fcffGrowthRate inp.forecastYears
    let projDF := projection_df base inp.fcffGrowthRate lastYear inp.forecastYears
    match inp.profile.marketCap with
    | none => Except.error (PyError.keyError "marketCap")
    | some marketCapRaw =>
      let market_cap := marketCapRaw / 10 ^ 9
      let total_debt := (inp.profile.totalDebt.getD 0) / 10 ^ 9
      let cash := (inp.profile.totalCash.getD 0) / 10 ^ 9
      let net_debt := total_debt - cash
      let interestRes : Except PyError ℚ :=
        if 0 < total_debt then
          match (inp.interestExpenseCol.filterMap id).getLast? with
          | some v => Except.ok |v|
          | none => Except.error PyError.indexError
        else Except.ok 0
      match interestRes with
      | Except.error e => Except.error e
      | Except.ok interest_expense =>
        let cost_of_debt := if 0 < total_debt then interest_expense / total_debt else 2 / 100
        let cost_of_equity := inp.riskFreeRate + inp.beta * (inp.marketReturn - inp.riskFreeRate)
        let w := equity_weight market_cap net_debt * cost_of_equity
          + debt_weight market_cap net_debt * cost_of_debt * (1 - 21 / 100)
        match inp.profile.sharesOutstanding with
        | none => Except.error (PyError.keyError "sharesOutstanding")
        | some shares =>
          let eqv := equity_value proj w inp.terminalGrowthRate inp.forecastYears net_debt
          let fv := fair_value_per_share eqv shares
          Except.ok ⟨base, lastYear, projDF, w, eqv, fv⟩

/-- A concrete history for instantiations: three valid periods given out of
order, plus one period with a missing operating-cash-flow cell. -/
def rawSample : List RawPeriod :=
  [⟨2023, some 7, some (-3)⟩, ⟨2021, some 5, some (-1)⟩, ⟨2020, none, some 1⟩,
   ⟨2022, some 6, some (-2)⟩]

/-- Concrete inputs whose cleaned history is empty: every period is missing a
field. -/
def inpEmpty : Inputs :=
  ⟨[⟨2024, none, some 1⟩, ⟨2023, some 2, none⟩],
   ⟨some 8, some 1, some 1, some 4⟩, 4 / 100, 1, 9 / 100, 5, 1 / 10, 5 / 100, [some 2]⟩

/-- Concrete inputs with a valid history and a profile missing only
`marketCap`. -/
def inpNoMarketCap : Inputs :=
  ⟨[⟨2024, some 10, some (-2)⟩], ⟨none, some 1, some 1, some 4⟩,
   4 / 100, 1, 9 / 100, 2, 1 / 10, 5 / 100, [some 2]⟩

/-- Concrete inputs with a valid single-period history and a profile missing
`totalDebt` and `totalCash`. -/
def inpDefaulted : Inputs :=
  ⟨[⟨2024, some 10, some (-2)⟩], ⟨some 8, none, none, some 4⟩,
   4 / 100, 1, 9 / 100, 2, 1 / 10, 5 / 100, []⟩

/-- Concrete inputs with a valid history and a profile missing
`sharesOutstanding`. -/
def inpNoShares : Inputs :=
  ⟨[⟨2024, some 10, some (-2)⟩], ⟨some 8, none, none, none⟩,
   4 / 100, 1, 9 / 100, 2, 1 / 10, 5 / 100, []⟩

/-- Concrete inputs with exactly two valid periods (FCFF 4 and 8) and a full
profile. -/
def inpTwoPeriods : Inputs :=
  ⟨[⟨2024, some 10, some (-2)⟩, ⟨2023, some 6, some (-2)⟩],
   ⟨some 8, none, none, some 4⟩, 4 / 100, 1, 9 / 100, 2, 1 / 10, 5 / 100, []⟩

/-! Helper lemmas shared by the claim theorems. -/

instance : IsTotal RawPeriod (fun a b => a.year ≤ b.year) :=
  ⟨fun a b => le_total a.year b.year⟩

instance : IsTrans RawPeriod (fun a b => a.year ≤ b.year) :=
  ⟨fun _ _ _ hab hbc => le_trans hab hbc⟩

theorem discounted_fcffs_length (proj : List ℚ) (w : ℚ) :
    (discounted_fcffs proj w).length = proj.length := by
  simp [discounted_fcffs, List.enumFrom_length]

theorem discounted_fcffs_get (proj : List ℚ) (w : ℚ) (i : ℕ) (h : i < proj.length) :
    (discounted_fcffs proj w).get ⟨i, by rw [discounted_fcffs_length]; exact h⟩
      = proj.get ⟨i, h⟩ / (1 + w) ^ (i + 1) := by
  simp [discounted_fcffs, List.get_eq_getElem, List.getElem_map, List.getElem_enumFrom,
    Nat.add_comm]

theorem enumFrom_map_mul (c : ℚ) (proj : List ℚ) (k : ℕ) :
    List.enumFrom k (proj.map (fun x => x * c))
      = (List.enumFrom k proj).map (fun p => (p.1, p.2 * c)) := by
  induction proj generalizing k with
  | nil => rfl
  | cons a t ih => simp [List.enumFrom, ih]

theorem sum_map_mul (l : List ℚ) (c : ℚ) :
    (l.map (fun x => x * c)).sum = l.sum * c := by
  induction l with
  | nil => simp
  | cons a t ih => simp [ih, add_mul]

theorem discounted_fcffs_map_mul (proj : List ℚ) (w c : ℚ) :
    discounted_fcffs (proj.map (fun x => x * c)) w
      = (discounted_fcffs proj w).map (fun x => x * c) := by
  simp only [discounted_fcffs, enumFrom_map_mul, List.map_map]
  congr 1
  funext p
  simp [Function.comp, mul_div_assoc, mul_comm]

theorem getLastD_map_mul (proj : List ℚ) (c : ℚ) :
    (proj.map (fun x => x * c)).getLastD 0 = proj.getLastD 0 * c := by
  rw [List.getLastD_eq_getLast?, List.getLastD_eq_getLast?, List.getLast?_map]
  cases proj.getLast? with
  | none => simp
  | some a => simp

theorem enterprise_value_map_mul (proj : List ℚ) (w g : ℚ) (n : ℕ) (c : ℚ) :
    enterprise_value (proj.map (fun x => x * c)) w g n = enterprise_value proj w g n * c := by
  simp only [enterprise_value, terminal_value, terminal_value_discounted,
    discounted_fcffs_map_mul, getLastD_map_mul, sum_map_mul]
  ring

theorem projection_df_length (base g : ℚ) (lastYear : ℤ) (n : ℕ) :
    (projection_df base g lastYear n).length = n := by
  rw [projection_df, List.length_zip, forecast_years_range, projected_fcff,
    List.length_map, List.length_map, List.length_range, min_self]

theorem discounted_fcffs_eq_range (proj : List ℚ) (w : ℚ) :
    discounted_fcffs proj w
      = (List.range proj.length).map (fun i => proj.getD i 0 / (1 + w) ^ (i + 1)) := by
  refine List.ext_getElem ?_ ?_
  · rw [discounted_fcffs_length, List.length_map, List.length_range]
  · intro i h1 h2
    rw [discounted_fcffs_length] at h1
    have hi := discounted_fcffs_get proj w i h1
    simp only [List.get_eq_getElem] at hi
    rw [List.getElem_map, List.getElem_range, List.getD_eq_getElem _ _ h1]
    exact hi

theorem getLastD_eq_getD (l : List ℚ) (h : l ≠ []) :
    l.getLastD 0 = l.getD (l.length - 1) 0 := by
  have hl : l.length - 1 < l.length := by
    have := List.length_pos.mpr h
    omega
  rw [List.getLastD_eq_getLast?, List.getLast?_eq_getElem?,
    List.getD_eq_getElem?_getD, List.getElem?_eq_getElem hl]

theorem fcff_df_sorted (raw : List RawPeriod) :
    List.Sorted (fun a b : FcffPeriod => a.year ≤ b.year) (fcff_df raw) := by
  unfold fcff_df
  rw [List.Sorted, List.pairwise_filterMap]
  have hs := List.sorted_insertionSort (fun a b : RawPeriod => a.year ≤ b.year) raw
  refine hs.imp ?_
  intro a b hab x hx y hy
  cases h1 : a.cfo <;> cases h2 : a.capex <;> rw [h1, h2] at hx <;>
    cases h3 : b.cfo <;> cases h4 : b.capex <;> rw [h3, h4] at hy <;>
      simp only [Option.mem_def, Option.some.injEq, reduceCtorEq] at hx hy
  subst hx
  subst hy
  exact hab

theorem mem_fcff_df {raw : List RawPeriod} {p : FcffPeriod} (hp : p ∈ fcff_df raw) :
    p.fcff = p.cfo + p.capex := by
  unfold fcff_df at hp
  rw [List.mem_filterMap] at hp
  obtain ⟨q, _, he⟩ := hp
  cases h1 : q.cfo <;> cases h2 : q.capex <;> rw [h1, h2] at he <;>
    simp only [Option.some.injEq, reduceCtorEq] at he
  subst he
  rfl

theorem tail3_eq_self {l : List ℚ} (h : l.length ≤ 3) : tail3 l = l := by
  unfold tail3
  have h0 : l.length - 3 = 0 := by omega
  rw [h0, List.drop_zero]

theorem tail3_length_of_ge {l : List ℚ} (h : 3 ≤ l.length) : (tail3 l).length = 3 := by
  unfold tail3
  rw [List.length_drop]
  omega

/-! Claim theorems. -/

/-- C3: for every sensitivity-grid cell whose discount-rate row value is less
than or equal to its terminal-growth-rate column value, the cell's output is
exactly the "N/A" sentinel, never a numeric value. -/
theorem C3_sensitivity_sentinel (proj : List ℚ) (n : ℕ) (netDebt shares w g : ℚ)
    (h : w ≤ g) : sensCell proj n netDebt shares w g = Cell.na := by
  rw [sensCell, if_pos h]

theorem C3_sensitivity_sentinel_witness :
    sensCell [110, 121] 2 10 4 (5 / 100) (5 / 100) = Cell.na :=
  C3_sensitivity_sentinel [110, 121] 2 10 4 (5 / 100) (5 / 100) (by norm_num)

/-- C5: equityWeight = marketCap / totalCapital and debtWeight =
netDebt / totalCapital, so the weights sum to 1 whenever
totalCapital = marketCap + netDebt is nonzero; when totalCapital = 0 the
weights are 1 and 0 (all-equity treatment, no division by zero). -/
theorem C5_wacc_weights (marketCap netDebt : ℚ) :
    (total_value marketCap netDebt ≠ 0 →
      equity_weight marketCap netDebt + debt_weight marketCap netDebt = 1)
    ∧ (total_value marketCap netDebt = 0 →
      equity_weight marketCap netDebt = 1 ∧ debt_weight marketCap netDebt = 0) := by
  constructor
  · intro h
    rw [equity_weight, debt_weight, if_pos h, if_pos h, div_add_div_same]
    rw [total_value] at h ⊢
    exact div_self h
  · intro h
    simp [equity_weight, debt_weight, h]

theorem C5_wacc_weights_witness :
    (equity_weight 2 (-1) + debt_weight 2 (-1) = 1)
    ∧ (equity_weight 1 (-1) = 1 ∧ debt_weight 1 (-1) = 0) :=
  ⟨(C5_wacc_weights 2 (-1)).1 (by norm_num [total_value]),
   (C5_wacc_weights 1 (-1)).2 (by norm_num [total_value])⟩

/-- C2, counterexample: the claim says that whenever wacc ≤ terminalGrowthRate
the base case never produces an ordinary numeric fairValuePerShare; but at
wacc = 5% < terminalGrowthRate = 8% every denominator of the chain is nonzero,
so the unguarded source chain silently returns an ordinary (finite) number -
no InvalidRateRelationError, no sentinel. -/
theorem C2_counterexample :
    (5 : ℚ) / 100 ≤ 8 / 100
    ∧ (fairValueChecked [110, 121] (5 / 100) (8 / 100) 2 10 4).isSome = true := by
  constructor
  · norm_num
  · rw [fairValueChecked, if_neg (by norm_num)]
    rfl

/-- C2, amended: the base-case valuation (lines 91-100) has no guard and no
InvalidRateRelationError; only at wacc = terminalGrowthRate exactly does it
fail to produce an ordinary number (the terminal-value denominator is zero,
giving a non-finite float, modeled as `none`); for wacc strictly below
terminalGrowthRate it silently returns an ordinary finite number (with a
negative terminal value). -/
theorem C2_terminal_precondition (proj : List ℚ) (w g : ℚ) (n : ℕ)
    (netDebt shares : ℚ) (h : w = g) :
    fairValueChecked proj w g n netDebt shares = none := by
  rw [fairValueChecked, if_pos (Or.inr (Or.inl (by rw [h, sub_self])))]

theorem C2_terminal_precondition_witness :
    fairValueChecked [110] (8 / 100) (8 / 100) 1 2 10 = none :=
  C2_terminal_precondition [110] (8 / 100) (8 / 100) 1 2 10 rfl

/-- C4: for every i = 1..forecastYears the i-th projection row is
(lastHistoricalYear + i, baseFCFF * (1+fcffGrowthRate)^i) - each value
determined by baseFCFF and the exponent alone - and for forecastYears = 3,
fcffGrowthRate = 0.10, baseFCFF = 100 the series is [110.0, 121.0, 133.1]. -/
theorem C4_projection_anchoring :
    (∀ (base g : ℚ) (lastYear : ℤ) (n i : ℕ) (h : i < n),
      (projection_df base g lastYear n).get ⟨i, by rw [projection_df_length]; exact h⟩
        = (lastYear + 1 + i, base * (1 + g) ^ (i + 1)))
    ∧ projected_fcff 100 (1 / 10) 3 = [110, 121, 1331 / 10] := by
  constructor
  · intro base g lastYear n i h
    simp only [projection_df, forecast_years_range, projected_fcff, List.get_eq_getElem,
      List.getElem_zip, List.getElem_map, List.getElem_range]
  · simp only [projected_fcff, List.range_succ, List.range_zero, List.map_cons, List.map_nil,
      List.map_append, List.nil_append, List.cons_append]
    norm_num

theorem C4_projection_anchoring_witness :
    (projection_df 100 (1 / 10) 2024 3).get ⟨1, by rw [projection_df_length]; norm_num⟩
      = (2024 + 1 + 1, 100 * (1 + 1 / 10) ^ (1 + 1)) :=
  C4_projection_anchoring.1 100 (1 / 10) 2024 3 1 (by norm_num)

/-- C1: the valuation chain of lines 91-100: discountedFCFF[i] =
projectedFCFF[i] / (1+wacc)^i for each forecast year i, terminal value
discounted by (1+wacc)^forecastYears, enterpriseValue =
sum(discountedFCFF) + terminalValueDiscounted, equityValue =
enterpriseValue - netDebt, and fairValuePerShare = equityValue /
sharesOutstanding with consistent unit scaling: multiplying the
billions-denominated equity value by 10^9 is the same as running the chain on
raw currency units and dividing by the raw share count. -/
theorem C1_valuation_chain (proj : List ℚ) (w g : ℚ) (n : ℕ) (netDebt shares : ℚ) :
    (∀ i (h : i < proj.length),
      (discounted_fcffs proj w).get ⟨i, by rw [discounted_fcffs_length]; exact h⟩
        = proj.get ⟨i, h⟩ / (1 + w) ^ (i + 1))
    ∧ terminal_value_discounted (terminal_value proj g w) w n
        = terminal_value proj g w / (1 + w) ^ n
    ∧ enterprise_value proj w g n
        = (discounted_fcffs proj w).sum
          + terminal_value_discounted (terminal_value proj g w) w n
    ∧ equity_value proj w g n netDebt = enterprise_value proj w g n - netDebt
    ∧ fair_value_per_share (equity_value proj w g n netDebt) shares
        = equity_value (proj.map (fun x => x * 10 ^ 9)) w g n (netDebt * 10 ^ 9) / shares := by
  refine ⟨fun i h => discounted_fcffs_get proj w i h, rfl, rfl, rfl, ?_⟩
  rw [fair_value_per_share, equity_value, equity_value, enterprise_value_map_mul]
  ring

theorem C1_valuation_chain_witness :
    ((discounted_fcffs [110, 121] (1 / 10)).get
        ⟨0, by rw [discounted_fcffs_length]; norm_num⟩
      = ([110, 121] : List ℚ).get ⟨0, by norm_num⟩ / (1 + 1 / 10) ^ (0 + 1))
    ∧ fair_value_per_share (equity_value [110, 121] (1 / 10) (5 / 100) 2 10) 4
        = equity_value ([110, 121].map (fun x => x * 10 ^ 9)) (1 / 10) (5 / 100) 2
            (10 * 10 ^ 9) / 4 :=
  ⟨(C1_valuation_chain [110, 121] (1 / 10) (5 / 100) 2 10 4).1 0 (by norm_num),
   (C1_valuation_chain [110, 121] (1 / 10) (5 / 100) 2 10 4).2.2.2.2⟩

/-- C6: for every grid cell with discount rate strictly above terminal growth
rate, the cell equals the source base-case chain (lines 91-100) re-run with
wacc = row and terminalGrowthRate = col over the same projection series,
rounded to 2 places; and that chain coincides with the §4.4 valuation as the
spec words it (`specFairValue`).  A cell at the base wacc and base growth rate
is the instance w = base wacc, g = base growth rate. -/
theorem C6_sensitivity_recompute (proj : List ℚ) (w g : ℚ) (n : ℕ) (netDebt shares : ℚ)
    (hlen : proj.length = n) (hne : proj ≠ []) (h : g < w) :
    sensCell proj n netDebt shares w g
      = Cell.val (round2 (fair_value_per_share (equity_value proj w g n netDebt) shares))
    ∧ fair_value_per_share (equity_value proj w g n netDebt) shares
      = specFairValue proj w g n netDebt shares := by
  constructor
  · rw [sensCell, if_neg (not_le.mpr h)]
    rfl
  · rw [specFairValue, fair_value_per_share, equity_value, enterprise_value,
      terminal_value, terminal_value_discounted, discounted_fcffs_eq_range,
      getLastD_eq_getD proj hne, hlen]

theorem C6_sensitivity_recompute_witness :
    (sensCell [110, 121] 2 10 4 (9 / 100) (5 / 100)
      = Cell.val (round2 (fair_value_per_share
          (equity_value [110, 121] (9 / 100) (5 / 100) 2 10) 4)))
    ∧ fair_value_per_share (equity_value [110, 121] (9 / 100) (5 / 100) 2 10) 4
      = specFairValue [110, 121] (9 / 100) (5 / 100) 2 10 4 :=
  C6_sensitivity_recompute [110, 121] (9 / 100) (5 / 100) 2 10 4 rfl
    (by simp) (by norm_num)

/-- C7: after reordering the periods chronologically ascending and dropping
every period missing either input, each remaining period's FCFF equals
operating cash flow plus capital expenditure exactly, and baseFCFF is the
arithmetic mean of the FCFF values of the 3 most recent valid periods (the
last 3 of the ascending history). -/
theorem C7_fcff_history (raw : List RawPeriod) :
    List.Sorted (fun a b : FcffPeriod => a.year ≤ b.year) (fcff_df raw)
    ∧ (∀ p ∈ fcff_df raw, p.fcff = p.cfo + p.capex)
    ∧ (3 ≤ (fcff_df raw).length →
        base_fcff (fcff_df raw)
          = (((fcff_df raw).map (fun p => p.fcff)).drop ((fcff_df raw).length - 3)).sum
              / 3) := by
  refine ⟨fcff_df_sorted raw, fun p hp => mem_fcff_df hp, fun h3 => ?_⟩
  rw [base_fcff, mean, tail3, List.length_map]
  have h1 : (((fcff_df raw).map (fun p => p.fcff)).drop ((fcff_df raw).length - 3)).length
      = 3 := by
    rw [List.length_drop, List.length_map]
    omega
  rw [h1]
  norm_num

theorem C7_fcff_history_witness :
    ((⟨2022, 6, -2, 4⟩ : FcffPeriod).fcff
        = (⟨2022, 6, -2, 4⟩ : FcffPeriod).cfo + (⟨2022, 6, -2, 4⟩ : FcffPeriod).capex)
    ∧ base_fcff (fcff_df rawSample)
        = (((fcff_df rawSample).map (fun p => p.fcff)).drop
            ((fcff_df rawSample).length - 3)).sum / 3 :=
  ⟨(C7_fcff_history rawSample).2.1 ⟨2022, 6, -2, 4⟩
      (by norm_num [fcff_df, rawSample, List.insertionSort, List.orderedInsert,
        List.filterMap_cons, FcffPeriod.mk.injEq]),
   (C7_fcff_history rawSample).2.2
      (by norm_num [fcff_df, rawSample, List.insertionSort, List.orderedInsert,
        List.filterMap_cons])⟩

/-- C8: when zero valid periods remain after dropping incomplete ones, the
run fails - reading the last entry of the empty history index raises, the
single top-level handler surfaces it, and no output (chart or metrics) is
produced - rather than computing against the empty history.  This is the
behavior the spec's §7 taxonomy calls DataInsufficientError; the source
realizes it as an uncaught IndexError at line 60. -/
theorem C8_insufficient_data (inp : Inputs) (h : fcff_df inp.raw = []) :
    pipeline inp = Except.error PyError.indexError := by
  simp only [pipeline, h, List.getLast?_nil]

theorem C8_insufficient_data_witness :
    pipeline inpEmpty = Except.error PyError.indexError :=
  C8_insufficient_data inpEmpty
    (by norm_num [fcff_df, inpEmpty, List.insertionSort, List.orderedInsert,
      List.filterMap_cons, List.filterMap_nil])

/-- C9, counterexample: a profile missing only `marketCap` does not default
to 0 and proceed - line 72 reads `info["marketCap"]` without a default, so
the run fails with a KeyError - refuting the claim that every absent field
among marketCap, totalDebt, totalCash defaults to 0. -/
theorem C9_counterexample :
    pipeline inpNoMarketCap = Except.error (PyError.keyError "marketCap") := by
  have h1 : (fcff_df inpNoMarketCap.raw).getLast? = some ⟨2024, 10, -2, 10 + -2⟩ := by
    norm_num [inpNoMarketCap, fcff_df, List.insertionSort, List.orderedInsert,
      List.filterMap_cons, List.getLast?]
  rw [pipeline, h1]
  rfl

/-- C9, amended: absent `totalDebt` and `totalCash` default to 0 (they are
read with `info.get(..., 0)`) and the computation proceeds; absent
`marketCap` and absent `sharesOutstanding` are required-field failures (both
are read with `info[...]`). -/
theorem C9_profile_defaults (inp : Inputs) :
    (fcff_df inp.raw ≠ [] → inp.profile.marketCap = none →
      pipeline inp = Except.error (PyError.keyError "marketCap"))
    ∧ (fcff_df inp.raw ≠ [] → inp.profile.totalDebt = none →
        inp.profile.totalCash = none → (∃ mc, inp.profile.marketCap = some mc) →
        inp.profile.sharesOutstanding = none →
        pipeline inp = Except.error (PyError.keyError "sharesOutstanding"))
    ∧ (fcff_df inp.raw ≠ [] → inp.profile.totalDebt = none →
        inp.profile.totalCash = none → (∃ mc, inp.profile.marketCap = some mc) →
        (∃ sh, inp.profile.sharesOutstanding = some sh) →
        (pipeline inp).isOk) := by
  refine ⟨fun hne hmc => ?_, fun hne hdebt hcash hmc hsh => ?_, fun hne hdebt hcash hmc hsh => ?_⟩
  · obtain ⟨p, hlast⟩ : ∃ p, (fcff_df inp.raw).getLast? = some p := by
      cases hl : (fcff_df inp.raw).getLast? with
      | none => exact absurd (List.getLast?_eq_none_iff.mp hl) hne
      | some p => exact ⟨p, rfl⟩
    simp only [pipeline, hlast, hmc]
  · obtain ⟨p, hlast⟩ : ∃ p, (fcff_df inp.raw).getLast? = some p := by
      cases hl : (fcff_df inp.raw).getLast? with
      | none => exact absurd (List.getLast?_eq_none_iff.mp hl) hne
      | some p => exact ⟨p, rfl⟩
    obtain ⟨mc, hmc⟩ := hmc
    simp only [pipeline, hlast, hmc, hdebt, hcash, hsh, Option.getD_none]
    norm_num
  · obtain ⟨p, hlast⟩ : ∃ p, (fcff_df inp.raw).getLast? = some p := by
      cases hl : (fcff_df inp.raw).getLast? with
      | none => exact absurd (List.getLast?_eq_none_iff.mp hl) hne
      | some p => exact ⟨p, rfl⟩
    obtain ⟨mc, hmc⟩ := hmc
    obtain ⟨sh, hsh⟩ := hsh
    simp only [pipeline, hlast, hmc, hdebt, hcash, hsh, Option.getD_none]
    norm_num [Except.isOk, Except.toBool]

theorem C9_profile_defaults_witness :
    pipeline inpNoShares = Except.error (PyError.keyError "sharesOutstanding")
    ∧ (pipeline inpDefaulted).isOk :=
  ⟨(C9_profile_defaults inpNoShares).2.1
      (by norm_num [fcff_df, inpNoShares, List.insertionSort, List.orderedInsert,
        List.filterMap_cons])
      rfl rfl ⟨8, rfl⟩ rfl,
   (C9_profile_defaults inpDefaulted).2.2
      (by norm_num [fcff_df, inpDefaulted, List.insertionSort, List.orderedInsert,
        List.filterMap_cons])
      rfl rfl ⟨8, rfl⟩ ⟨4, rfl⟩⟩

/-- C10 (implicit): with 1 or 2 valid periods, baseFCFF is the mean of all
available periods (the last-3 window of a shorter ascending series is the
whole series), and no minimum-period count beyond non-emptiness is enforced:
a concrete two-period run completes, with baseFCFF = (4 + 8) / 2 = 6. -/
theorem C10_short_window :
    (∀ hist : List FcffPeriod, 0 < hist.length → hist.length ≤ 3 →
      base_fcff hist = (hist.map (fun p => p.fcff)).sum / (hist.length : ℚ))
    ∧ base_fcff (fcff_df inpTwoPeriods.raw) = 6
    ∧ (pipeline inpTwoPeriods).isOk := by
  refine ⟨fun hist h0 h3 => ?_, ?_, ?_⟩
  · rw [base_fcff, mean, tail3_eq_self (by rw [List.length_map]; exact h3),
      List.length_map]
  · norm_num [inpTwoPeriods, fcff_df, List.insertionSort, List.orderedInsert,
      List.filterMap_cons, base_fcff, mean, tail3]
  · have h1 : (fcff_df inpTwoPeriods.raw).getLast? = some ⟨2024, 10, -2, 10 + -2⟩ := by
      norm_num [inpTwoPeriods, fcff_df, List.insertionSort, List.orderedInsert,
        List.filterMap_cons, List.getLast?]
    rw [pipeline, h1]
    norm_num [inpTwoPeriods, Except.isOk, Except.toBool]

theorem C10_short_window_witness :
    base_fcff [⟨2024, 10, -2, 8⟩]
      = (([⟨2024, 10, -2, 8⟩] : List FcffPeriod).map (fun p => p.fcff)).sum
          / (([⟨2024, 10, -2, 8⟩] : List FcffPeriod).length : ℚ) :=
  C10_short_window.1 [⟨2024, 10, -2, 8⟩] (by norm_num) (by norm_num)

end DCF
